import Mathlib

/-!
Shallow embedding of the relay performance analyzer
(the `useRelayPerformanceTest` hook and its helpers).

External effects are modelled as explicit inputs: a probe invocation
receives a `ProbeOutcome` describing what its awaited work did (clock
readings and the delivered events, or a thrown error), and a run of the
orchestrator receives a `RunEnv` describing the follow-list query's
outcome and each relay probe's outcome.

React `useState` setters are modelled by the sequence of committed
state snapshots: all setter calls between two `await` boundaries of the
orchestrator are batched into one snapshot.  The application mounts
through `createRoot` (React 18), whose automatic batching guarantees
that no render is observable between two setter calls of the same
synchronous block; in particular no snapshot can separate
`setResults(testResults)` from the `finally` block's
`setIsRunning(false)`.
-/

/-- A publish/subscribe item.  Only the fields the analyzer reads are
modelled: `id` (pushed into `eventIds`), `tags` (the relationship
markers of a follow-list record), and `size`, the byte length of the
item's JSON serialization as computed by `calculateEventSize`
(`JSON.stringify` followed by UTF-8 encoding; the wire encoding itself
is external to this embedding, so the resulting byte count is carried
on the event). -/
structure NostrEvent where
  id : String
  tags : List (List String)
  size : Nat
deriving DecidableEq

/-- `calculateEventSize`: estimated byte size of one serialized event. -/
def calculateEventSize (event : NostrEvent) : Nat := event.size

/-- The `RelayPerformanceResult` record, field for field.  JS numbers
holding millisecond differences are `Int`; `bandwidth` is the only
fractional value and is `ℚ`. -/
structure RelayPerformanceResult where
  relay : String
  success : Bool
  latency : Int
  bandwidth : ℚ
  duration : Int
  eventCount : Nat
  totalBytes : Nat
  followerCount : Nat
  eventIds : List String
  error : Option String
deriving DecidableEq

/-- What the awaited `testPool.query` call of a successful probe did:
the `Date.now()` readings at the three sites the source reads the
clock, and the delivered events.  `firstIterTime` is the `Date.now()`
taken inside the processing loop on its first iteration (only relevant
when at least one event was delivered); since that loop runs only after
the awaited query has returned, a real clock yields
`startTime ≤ endTime ≤ firstIterTime`. -/
structure ProbeSuccess where
  startTime : Int
  endTime : Int
  firstIterTime : Int
  events : List NostrEvent
deriving DecidableEq

/-- Outcome of the awaited work inside one probe: the query completed
and delivered events, or some step threw (timeout, connection error,
failed import); `err` carries the caught message (`err.message`, or
the `Unknown error` fallback for a non-`Error` throwable). -/
inductive ProbeOutcome where
  | ok : ProbeSuccess → ProbeOutcome
  | err : String → ProbeOutcome
deriving DecidableEq

/-- `testRelayPerformance`: probes one relay.  The `try` block is the
`.ok` branch; the `catch` block is the `.err` branch.  In the source,
`firstEventTime` starts `null` and is assigned `Date.now()` on the
first loop iteration; the conditional
`firstEventTime ? firstEventTime - startTime : duration` is falsy both
for `null` and for the number `0`, which the inner `if` mirrors.
`userPubkey` is accepted but unused, as in the source. -/
def testRelayPerformance (_userPubkey relay : String) (followers : List String)
    (outcome : ProbeOutcome) : RelayPerformanceResult :=
  match outcome with
  | ProbeOutcome.err msg =>
      { relay := relay, success := false, latency := 0, bandwidth := 0, duration := 0,
        eventCount := 0, totalBytes := 0, followerCount := followers.length,
        eventIds := [], error := some msg }
  | ProbeOutcome.ok res =>
      let firstEventTime : Option Int :=
        if res.events.isEmpty then none else some res.firstIterTime
      let duration : Int := res.endTime - res.startTime
      let latency : Int :=
        match firstEventTime with
        | some t => if t ≠ 0 then t - res.startTime else duration
        | none => duration
      let totalBytes : Nat := (res.events.map calculateEventSize).sum
      let bandwidth : ℚ :=
        if duration > 0 then ((totalBytes : ℚ) / (duration : ℚ)) * 1000 else 0
      { relay := relay, success := true, latency := latency, bandwidth := bandwidth,
        duration := duration, eventCount := res.events.length, totalBytes := totalBytes,
        followerCount := followers.length, eventIds := res.events.map NostrEvent.id,
        error := none }

/-- A probe run in which the wall clock advanced by one millisecond
between the completion of the awaited query (`endTime = 10`) and the
first iteration of the processing loop (`firstIterTime = 11`); one
event was delivered.  The readings are monotone
(`startTime ≤ endTime ≤ firstIterTime`), as a real clock guarantees. -/
def c3Outcome : ProbeOutcome :=
  ProbeOutcome.ok { startTime := 0, endTime := 10, firstIterTime := 11,
                    events := [{ id := "e1", tags := [], size := 5 }] }

/-- Claim C3: at the run `c3Outcome` the probe succeeds with one item
received, yet `latency = 11 > 10 = duration`, refuting
`latencyMs ≤ durationMs` for `itemCount ≥ 1`.  The source assigns
`firstEventTime = Date.now()` while iterating the already-delivered
events, i.e. at or after `endTime`, so with at least one item
`latency ≥ duration` always — contradicting the declaration's own
comment that `latency` is the time to first event. -/
theorem testRelayPerformance_latency_exceeds_duration :
    (testRelayPerformance "pk" "wss://r1" ["f1"] c3Outcome).success = true ∧
    (testRelayPerformance "pk" "wss://r1" ["f1"] c3Outcome).eventCount = 1 ∧
    (testRelayPerformance "pk" "wss://r1" ["f1"] c3Outcome).duration = 10 ∧
    (testRelayPerformance "pk" "wss://r1" ["f1"] c3Outcome).latency = 11 ∧
    ¬ (testRelayPerformance "pk" "wss://r1" ["f1"] c3Outcome).latency ≤
        (testRelayPerformance "pk" "wss://r1" ["f1"] c3Outcome).duration := by
  decide

/-- Claim C5: on any underlying failure the probe returns a result with
`success = false`, zeroed latency, bandwidth, duration, item count and
byte count, empty `eventIds`, the caught message in `error`, and
`followerCount` equal to the supplied follower list's length.  The
embedding of the probe is a total function, which models the contract
that no exception escapes its boundary. -/
theorem testRelayPerformance_error_contract (userPubkey relay msg : String)
    (followers : List String) :
    testRelayPerformance userPubkey relay followers (ProbeOutcome.err msg) =
      { relay := relay, success := false, latency := 0, bandwidth := 0, duration := 0,
        eventCount := 0, totalBytes := 0, followerCount := followers.length,
        eventIds := [], error := some msg } := rfl

/-- Claim C9: every probe result, successful or failed, has
`eventCount` equal to the length of `eventIds`: the counter and the id
list are advanced together for each received event, and both are
zero/empty on failure. -/
theorem testRelayPerformance_eventCount_matches (userPubkey relay : String)
    (followers : List String) (outcome : ProbeOutcome) :
    (testRelayPerformance userPubkey relay followers outcome).eventCount =
      (testRelayPerformance userPubkey relay followers outcome).eventIds.length := by
  cases outcome <;> simp [testRelayPerformance]

/-- The `RelayOverlapResult` record, field for field.  `relay1Only` and
`relay2Only` are JS subtraction results and so are `Int` (the second
can go negative when the first relay's id list has duplicates);
`overlapPercentage` is fractional. -/
structure RelayOverlapResult where
  relay1 : String
  relay2 : String
  relay1Only : Int
  relay2Only : Int
  common : Nat
  relay1Total : Nat
  relay2Total : Nat
  overlapPercentage : ℚ
deriving DecidableEq

/-- `common` for one pair: the count of relay1's event ids contained in
the set built from relay2's event ids
(`new Set(relay2.eventIds)`, `set2.has(id)`). -/
def commonCount (relay1 relay2 : RelayPerformanceResult) : Nat :=
  (relay1.eventIds.filter (fun id => relay2.eventIds.contains id)).length

/-- `totalUnique = relay1Only + relay2Only + common` of the source. -/
def totalUnique (relay1 relay2 : RelayPerformanceResult) : Int :=
  ((relay1.eventIds.length : Int) - commonCount relay1 relay2) +
    ((relay2.eventIds.length : Int) - commonCount relay1 relay2) +
    commonCount relay1 relay2

/-- Body of the inner loop of `calculateOverlap` for one pair `(i, j)`. -/
def overlapPair (relay1 relay2 : RelayPerformanceResult) : RelayOverlapResult :=
  { relay1 := relay1.relay
    relay2 := relay2.relay
    relay1Only := (relay1.eventIds.length : Int) - commonCount relay1 relay2
    relay2Only := (relay2.eventIds.length : Int) - commonCount relay1 relay2
    common := commonCount relay1 relay2
    relay1Total := relay1.eventIds.length
    relay2Total := relay2.eventIds.length
    overlapPercentage :=
      if totalUnique relay1 relay2 > 0 then
        ((commonCount relay1 relay2 : ℚ) / (totalUnique relay1 relay2 : ℚ)) * 100
      else 0 }

/-- All pairs `(i, j)` with `i < j`, in the nested-loop order of the
source (`i` ascending outer, `j = i+1 ..` inner). -/
def orderedPairs {α : Type} : List α → List (α × α)
  | [] => []
  | x :: xs => (xs.map (fun y => (x, y))) ++ orderedPairs xs

/-- `calculateOverlap`: keep the successful results (in input order)
and compare every pair of them. -/
def calculateOverlap (results : List RelayPerformanceResult) : List RelayOverlapResult :=
  (orderedPairs (results.filter (fun r => r.success))).map
    (fun p => overlapPair p.1 p.2)

theorem orderedPairs_mem {α : Type} {l : List α} {p : α × α}
    (hp : p ∈ orderedPairs l) : p.1 ∈ l ∧ p.2 ∈ l := by
  induction l with
  | nil => simp [orderedPairs] at hp
  | cons x xs ih =>
    simp only [orderedPairs, List.mem_append, List.mem_map] at hp
    rcases hp with ⟨y, hy, rfl⟩ | hp
    · exact ⟨List.mem_cons_self x xs, List.mem_cons_of_mem x hy⟩
    · obtain ⟨h1, h2⟩ := ih hp
      exact ⟨List.mem_cons_of_mem x h1, List.mem_cons_of_mem x h2⟩

theorem calculateOverlap_mem {results : List RelayPerformanceResult}
    {o : RelayOverlapResult} (ho : o ∈ calculateOverlap results) :
    ∃ a b, a ∈ results ∧ b ∈ results ∧ a.success = true ∧ b.success = true ∧
      o = overlapPair a b := by
  unfold calculateOverlap at ho
  obtain ⟨p, hp, rfl⟩ := List.mem_map.mp ho
  obtain ⟨h1, h2⟩ := orderedPairs_mem hp
  exact ⟨p.1, p.2, (List.mem_filter.mp h1).1, (List.mem_filter.mp h2).1,
    (List.mem_filter.mp h1).2, (List.mem_filter.mp h2).2, rfl⟩

/-- Claim C6: every produced `OverlapResult` satisfies the partition
invariant `aOnly + common = aTotal` and `bOnly + common = bTotal`, for
arbitrary input (duplicates included), since both sides are defined by
the same subtraction. -/
theorem calculateOverlap_partition (results : List RelayPerformanceResult)
    (o : RelayOverlapResult) (ho : o ∈ calculateOverlap results) :
    o.relay1Only + (o.common : Int) = (o.relay1Total : Int) ∧
    o.relay2Only + (o.common : Int) = (o.relay2Total : Int) := by
  obtain ⟨a, b, -, -, -, -, rfl⟩ := calculateOverlap_mem ho
  constructor <;> simp [overlapPair]

/-- Scenario A, first relay: a successful probe that returned items
`a`, `b`, `c`. -/
def c8r1 : RelayPerformanceResult :=
  { relay := "r1", success := true, latency := 0, bandwidth := 0, duration := 0,
    eventCount := 3, totalBytes := 0, followerCount := 0,
    eventIds := ["a", "b", "c"], error := none }

/-- Scenario A, second relay: a successful probe that returned items
`b`, `c`, `d`. -/
def c8r2 : RelayPerformanceResult :=
  { relay := "r2", success := true, latency := 0, bandwidth := 0, duration := 0,
    eventCount := 3, totalBytes := 0, followerCount := 0,
    eventIds := ["b", "c", "d"], error := none }

/-- Claim C8: for exactly two successful results with ids `[a,b,c]` and
`[b,c,d]`, the analyzer returns a single `OverlapResult` with
`common = 2`, `aOnly = 1`, `bOnly = 1` and `overlapPercentage = 50`. -/
theorem calculateOverlap_scenario_a :
    calculateOverlap [c8r1, c8r2] =
      [{ relay1 := "r1", relay2 := "r2", relay1Only := 1, relay2Only := 1,
         common := 2, relay1Total := 3, relay2Total := 3,
         overlapPercentage := 50 }] := by
  have h : calculateOverlap [c8r1, c8r2] = [overlapPair c8r1 c8r2] := rfl
  have hp : (overlapPair c8r1 c8r2).overlapPercentage = 50 := by
    show (if totalUnique c8r1 c8r2 > 0 then
        ((commonCount c8r1 c8r2 : ℚ) / (totalUnique c8r1 c8r2 : ℚ)) * 100
      else 0) = 50
    norm_num [show commonCount c8r1 c8r2 = 2 from rfl,
      show totalUnique c8r1 c8r2 = 4 from rfl]
  have h0 : overlapPair c8r1 c8r2 =
      { relay1 := "r1", relay2 := "r2", relay1Only := 1, relay2Only := 1,
        common := 2, relay1Total := 3, relay2Total := 3,
        overlapPercentage := (overlapPair c8r1 c8r2).overlapPercentage } := rfl
  rw [h, h0, hp]

/-- Claim C6 witness at Scenario A's input. -/
theorem calculateOverlap_partition_witness :
    (overlapPair c8r1 c8r2).relay1Only + ((overlapPair c8r1 c8r2).common : Int) =
        ((overlapPair c8r1 c8r2).relay1Total : Int) ∧
      (overlapPair c8r1 c8r2).relay2Only + ((overlapPair c8r1 c8r2).common : Int) =
        ((overlapPair c8r1 c8r2).relay2Total : Int) :=
  calculateOverlap_partition [c8r1, c8r2] (overlapPair c8r1 c8r2)
    (show overlapPair c8r1 c8r2 ∈ [overlapPair c8r1 c8r2] from
      List.mem_singleton.mpr rfl)

/-- A successful probe result carrying only the item `a`. -/
def c2rA : RelayPerformanceResult :=
  { relay := "rA", success := true, latency := 0, bandwidth := 0, duration := 0,
    eventCount := 1, totalBytes := 0, followerCount := 0,
    eventIds := ["a"], error := none }

/-- A successful probe result carrying only the item `b`. -/
def c2rB : RelayPerformanceResult :=
  { relay := "rB", success := true, latency := 0, bandwidth := 0, duration := 0,
    eventCount := 1, totalBytes := 0, followerCount := 0,
    eventIds := ["b"], error := none }

/-- Claim C2 counterexample: two successful, duplicate-free, disjoint,
nonempty id lists give `overlapPercentage = 0` while
`aOnly + bOnly + common = 2 ≠ 0`, so percentage zero is not equivalent
to `aOnly + bOnly + common = 0` (the percentage is also zero whenever
`common = 0` and the union is nonempty). -/
theorem calculateOverlap_zero_iff_fails :
    (∀ r ∈ [c2rA, c2rB], r.success = true → r.eventIds.Nodup) ∧
    calculateOverlap [c2rA, c2rB] = [overlapPair c2rA c2rB] ∧
    ¬ ((overlapPair c2rA c2rB).overlapPercentage = 0 ↔
        (overlapPair c2rA c2rB).relay1Only + (overlapPair c2rA c2rB).relay2Only +
          ((overlapPair c2rA c2rB).common : Int) = 0) := by
  refine ⟨by decide, rfl, ?_⟩
  have hp : (overlapPair c2rA c2rB).overlapPercentage = 0 := by
    show (if totalUnique c2rA c2rB > 0 then
        ((commonCount c2rA c2rB : ℚ) / (totalUnique c2rA c2rB : ℚ)) * 100
      else 0) = 0
    norm_num [show commonCount c2rA c2rB = 0 from rfl,
      show totalUnique c2rA c2rB = 2 from rfl]
  intro hiff
  have h2 := hiff.mp hp
  rw [show (overlapPair c2rA c2rB).relay1Only + (overlapPair c2rA c2rB).relay2Only +
      ((overlapPair c2rA c2rB).common : Int) = 2 from rfl] at h2
  exact absurd h2 (by decide)

/-- With a duplicate-free first id list, `common` is bounded by the
second list's length: the filtered sublist is duplicate-free and each
of its members occurs in the second list. -/
theorem commonCount_le_right {a b : RelayPerformanceResult}
    (h : a.eventIds.Nodup) : commonCount a b ≤ b.eventIds.length := by
  unfold commonCount
  have hnd : (a.eventIds.filter (fun id => b.eventIds.contains id)).Nodup :=
    h.filter _
  have hsub : (a.eventIds.filter (fun id => b.eventIds.contains id)).toFinset ⊆
      b.eventIds.toFinset := by
    intro x hx
    rw [List.mem_toFinset] at hx ⊢
    have hmem := List.of_mem_filter hx
    exact List.mem_of_elem_eq_true hmem
  calc (a.eventIds.filter (fun id => b.eventIds.contains id)).length
      = (a.eventIds.filter (fun id => b.eventIds.contains id)).toFinset.card := by
        rw [List.toFinset_card_of_nodup hnd]
    _ ≤ b.eventIds.toFinset.card := Finset.card_le_card hsub
    _ ≤ b.eventIds.length := b.eventIds.toFinset_card_le

/-- Claim C2 (amended): when every successful input result carries
duplicate-free `eventIds`, every produced `overlapPercentage` lies in
`[0, 100]`, and it equals `0` exactly when `common = 0` (not exactly
when `aOnly + bOnly + common = 0`: percentage zero also occurs for
disjoint nonempty id sets, see `calculateOverlap_zero_iff_fails`). -/
theorem calculateOverlap_percentage_bounds (results : List RelayPerformanceResult)
    (hnd : ∀ r ∈ results, r.success = true → r.eventIds.Nodup)
    (o : RelayOverlapResult) (ho : o ∈ calculateOverlap results) :
    0 ≤ o.overlapPercentage ∧ o.overlapPercentage ≤ 100 ∧
      (o.overlapPercentage = 0 ↔ o.common = 0) := by
  obtain ⟨a, b, ha, hb, hsa, hsb, rfl⟩ := calculateOverlap_mem ho
  have hda : a.eventIds.Nodup := hnd a ha hsa
  have hca : commonCount a b ≤ a.eventIds.length := List.length_filter_le _ _
  have hcb : commonCount a b ≤ b.eventIds.length := commonCount_le_right hda
  have htU : totalUnique a b =
      (a.eventIds.length : Int) + b.eventIds.length - commonCount a b := by
    unfold totalUnique; ring
  have hcle : (commonCount a b : Int) ≤ totalUnique a b := by
    rw [htU]; omega
  by_cases hpos : totalUnique a b > 0
  · have h1 : (0 : ℚ) < ((totalUnique a b : Int) : ℚ) := by exact_mod_cast hpos
    have h2 : ((commonCount a b : ℚ)) ≤ ((totalUnique a b : Int) : ℚ) := by
      exact_mod_cast hcle
    simp only [overlapPair, if_pos hpos]
    refine ⟨mul_nonneg (div_nonneg (by positivity) h1.le) (by norm_num), ?_, ?_⟩
    · rw [div_mul_eq_mul_div, div_le_iff₀ h1]
      linarith
    · constructor
      · intro h0
        rcases mul_eq_zero.mp h0 with hd | h100
        · rcases div_eq_zero_iff.mp hd with hc0 | htU0
          · exact_mod_cast hc0
          · exact absurd htU0 (ne_of_gt h1)
        · norm_num at h100
      · intro hc0
        rw [hc0]
        norm_num
  · have hc0 : commonCount a b = 0 := by omega
    simp only [overlapPair, if_neg hpos]
    refine ⟨le_refl 0, by norm_num, by simp [hc0]⟩

/-- Claim C2 witness at Scenario A's duplicate-free input. -/
theorem calculateOverlap_percentage_bounds_witness :
    0 ≤ (overlapPair c8r1 c8r2).overlapPercentage ∧
      (overlapPair c8r1 c8r2).overlapPercentage ≤ 100 ∧
      ((overlapPair c8r1 c8r2).overlapPercentage = 0 ↔
        (overlapPair c8r1 c8r2).common = 0) :=
  calculateOverlap_percentage_bounds [c8r1, c8r2] (by decide)
    (overlapPair c8r1 c8r2)
    (show overlapPair c8r1 c8r2 ∈ [overlapPair c8r1 c8r2] from
      List.mem_singleton.mpr rfl)

/-- The `p`-tag test of the follower extraction,
`tag[0] === 'p' && tag[1]`: the discriminator is `p` and the second
element is present and truthy (a non-empty string). -/
def isPTag (tag : List String) : Bool :=
  tag.get? 0 == some "p" && (tag.get? 1).getD "" != ""

/-- `tag[1]` of a tag, the extracted identity (always defined and
non-empty on tags passing `isPTag`). -/
def tagValue (tag : List String) : String := (tag.get? 1).getD ""

/-- Follower extraction from the follow-list record:
`tags.filter(p-tag).map(tag => tag[1]).slice(0, 50)`. -/
def extractFollowers (event : NostrEvent) : List String :=
  ((event.tags.filter isPTag).map tagValue).take 50

/-- `getFollowers`, as a function of the awaited follow-list query's
outcome (one kind-3 record requested from the ambient client under a
15-second timeout).  `.error` carries the message the `catch` block
rethrows; an empty query result and an empty extraction throw the
dedicated messages; otherwise the extracted identities of the first
returned record are produced. -/
def getFollowers (queryOutcome : Except String (List NostrEvent)) :
    Except String (List String) :=
  match queryOutcome with
  | Except.error msg => Except.error msg
  | Except.ok [] =>
      Except.error "No follow list found. Please follow some users first."
  | Except.ok (followEvent :: _) =>
      if (extractFollowers followEvent).isEmpty then
        Except.error "Your follow list is empty. Please follow some users first."
      else Except.ok (extractFollowers followEvent)

/-- Claim C10: every identity returned by the follower resolver comes
from a tag of the follow-list record whose discriminator is `p` and
whose second element is that identity, a non-empty string; `p` tags
with a missing or empty second element are skipped and never contribute
an empty identity. -/
theorem getFollowers_from_nonempty_p_tags (followEvent : NostrEvent)
    (rest : List NostrEvent) (followers : List String)
    (h : getFollowers (Except.ok (followEvent :: rest)) = Except.ok followers) :
    ∀ f ∈ followers, ∃ tag ∈ followEvent.tags,
      tag.get? 0 = some "p" ∧ tag.get? 1 = some f ∧ f ≠ "" := by
  intro f hf
  simp only [getFollowers] at h
  by_cases he : (extractFollowers followEvent).isEmpty
  · rw [if_pos he] at h
    exact absurd h (by simp)
  · rw [if_neg he] at h
    injection h with hfl
    subst hfl
    have hf' := List.mem_of_mem_take hf
    obtain ⟨tag, htag, rfl⟩ := List.mem_map.mp hf'
    obtain ⟨htags, hpt⟩ := List.mem_filter.mp htag
    obtain ⟨h0, h1⟩ := Bool.and_eq_true_iff.mp hpt
    have h0' : tag.get? 0 = some "p" := eq_of_beq h0
    have h1' : (tag.get? 1).getD "" ≠ "" := by
      simpa using h1
    cases hget : tag.get? 1 with
    | none =>
        rw [hget] at h1'
        simp at h1'
    | some s =>
        rw [hget] at h1'
        simp only [Option.getD_some] at h1'
        have hval : tagValue tag = s := by
          simp only [tagValue, hget, Option.getD_some]
        refine ⟨tag, htags, h0', ?_, ?_⟩
        · rw [hval]
          exact hget
        · rw [hval]
          exact h1'

/-- A follow-list record whose tags exercise every branch of the `p`
filter: one valid tag, one `p` tag with an empty value, a non-`p` tag,
and a `p` tag with no value at all. -/
def c10Event : NostrEvent :=
  { id := "follow1", tags := [["p", "alice"], ["p", ""], ["e", "bob"], ["p"]],
    size := 0 }

/-- Claim C10 witness at the record `c10Event` (the resolver returns
exactly `alice`). -/
theorem getFollowers_from_nonempty_p_tags_witness :
    ∃ tag ∈ c10Event.tags,
      tag.get? 0 = some "p" ∧ tag.get? 1 = some "alice" ∧ "alice" ≠ "" :=
  getFollowers_from_nonempty_p_tags c10Event [] ["alice"] rfl "alice"
    (List.mem_singleton.mpr rfl)

/-- Committed run state of the hook: one field per `useState` variable. -/
structure RunState where
  isRunning : Bool
  results : Option (List RelayPerformanceResult)
  overlapResults : Option (List RelayOverlapResult)
  progress : ℚ
  currentPhase : String
  error : Option String
deriving DecidableEq

/-- Environment of one `startTest` run: the outcome of the awaited
follow-list query, and for each relay index the outcome of that relay's
awaited probe work. -/
structure RunEnv where
  followerQuery : Except String (List NostrEvent)
  probe : Nat → ProbeOutcome

/-- Effects of one `startTest` call: the committed state snapshots in
order (empty when the call was gated by `isRunning`, meaning every
state field keeps its previous value), whether the follower fetch was
started, and which relays were probed, in order. -/
structure RunOutput where
  trace : List RunState
  followerFetchStarted : Bool
  probesStarted : List String
deriving DecidableEq

/-- First-occurrence removal of a pattern, as the JS `String.replace`
with a string pattern and an empty replacement
(the source strips the `wss` scheme from the relay name). -/
def replaceFirst (s pat : String) : String :=
  match s.splitOn pat with
  | [] => s
  | [only] => only
  | first :: more => first ++ String.intercalate pat more

/-- Snapshot committed at the follow-list query await: the reset writes
at the head of `startTest` (`isRunning := true`, cleared results,
overlap, error, `progress := 0`) batched with the writes at the head of
`getFollowers` (fetch phase, `progress := 10`). -/
def snapFetching : RunState :=
  { isRunning := true, results := none, overlapResults := none,
    progress := 10, currentPhase := "Fetching your follow list...", error := none }

/-- Final snapshot of a run whose follower resolution failed: the
`catch` block (`setError`, `setProgress(0)`) batched with the `finally`
block (`setIsRunning(false)`). -/
def snapFollowerError (msg : String) : RunState :=
  { snapFetching with isRunning := false, progress := 0, error := some msg }

/-- Snapshot committed at the probe await of relay `i`: the loop-head
writes (the phase names the relay with the scheme stripped,
`progress = 30 + (i/N)*60`), batched with the preceding writes of the
same block (`progress := 25`, the follower-count summary phase,
`progress := 30`). -/
def probeSnap (relayCount : Nat) (i : Nat) (relay : String) : RunState :=
  { snapFetching with
    progress := 30 + ((i : ℚ) / (relayCount : ℚ)) * 60,
    currentPhase := "Analyzing " ++ replaceFirst relay "wss://" ++ "..." }

/-- The end-of-run `error` classification: the all-failed message when
the failed count equals the total count (`failedTests.length ===
testResults.length`, vacuously true for zero relays), the k-of-n
message when some but not all failed, otherwise no error. -/
def runErrorMessage (testResults : List RelayPerformanceResult) : Option String :=
  if (testResults.filter (fun r => !r.success)).length = testResults.length then
    some "All relays failed analysis. Please check your internet connection and try again."
  else if 0 < (testResults.filter (fun r => !r.success)).length then
    some (toString (testResults.filter (fun r => !r.success)).length ++ " out of " ++
      toString testResults.length ++ " relays failed analysis.")
  else none

/-- The accumulated `testResults` list: one probe per relay, in input
order, each probe reading its outcome from the environment at its
index. -/
def runProbes (userPubkey : String) (relays : List String)
    (followers : List String) (env : RunEnv) : List RelayPerformanceResult :=
  relays.enum.map (fun ir => testRelayPerformance userPubkey ir.2 followers (env.probe ir.1))

/-- Final snapshot of a run that passed follower resolution: overlap
stored, phase and progress at their completion values, `results`
published, the outcome classified into `error`, and `isRunning`
cleared — all one batch, since no `await` separates the last probe's
completion from the end of the function (the `finally` block
included). -/
def snapFinal (testResults : List RelayPerformanceResult) : RunState :=
  { isRunning := false, results := some testResults,
    overlapResults := some (calculateOverlap testResults),
    progress := 100, currentPhase := "Analysis completed!",
    error := runErrorMessage testResults }

/-- `startTest`: the `isRunning` re-entrancy gate, then the committed
snapshots of the run as driven by the environment.  A follower-
resolution failure ends the run through the `catch` path; otherwise
every relay is probed sequentially (an individual probe failure never
aborts the loop) and the final snapshot publishes the run's outcome. -/
def startTest (s0 : RunState) (userPubkey : String) (relays : List String)
    (env : RunEnv) : RunOutput :=
  if s0.isRunning then
    { trace := [], followerFetchStarted := false, probesStarted := [] }
  else
    match getFollowers env.followerQuery with
    | Except.error msg =>
        { trace := [snapFetching, snapFollowerError msg],
          followerFetchStarted := true, probesStarted := [] }
    | Except.ok followers =>
        { trace := snapFetching ::
            (relays.enum.map (fun ir => probeSnap relays.length ir.1 ir.2) ++
              [snapFinal (runProbes userPubkey relays followers env)]),
          followerFetchStarted := true, probesStarted := relays }

/-- The state after the call: the last committed snapshot, or the
initial state when nothing was committed. -/
def finalState (s0 : RunState) (out : RunOutput) : RunState :=
  out.trace.getLastD s0

/-- Claim C7: a `startTest` call while `isRunning` is true is a no-op:
no state snapshot is committed (every `RunState` field keeps its
previous value), the follower fetch is not started, and no probe is
started. -/
theorem startTest_reentrant_noop (s0 : RunState) (userPubkey : String)
    (relays : List String) (env : RunEnv) (h : s0.isRunning = true) :
    startTest s0 userPubkey relays env =
      { trace := [], followerFetchStarted := false, probesStarted := [] } := by
  unfold startTest
  rw [if_pos h]

/-- An idle initial state, as the hook mounts. -/
def cIdle : RunState :=
  { isRunning := false, results := none, overlapResults := none,
    progress := 0, currentPhase := "", error := none }

/-- A state with a run in flight. -/
def cBusy : RunState :=
  { isRunning := true, results := none, overlapResults := none,
    progress := 50, currentPhase := "Analyzing r1...", error := none }

/-- A follow-list record resolving to the single follower `alice`. -/
def cFollowEvent : NostrEvent :=
  { id := "follow0", tags := [["p", "alice"]], size := 0 }

/-- A run environment whose follow-list query succeeds with
`cFollowEvent` and whose probes all fail with a connection error. -/
def cEnv : RunEnv :=
  { followerQuery := Except.ok [cFollowEvent],
    probe := fun _ => ProbeOutcome.err "down" }

/-- Claim C7 witness at a concrete busy state. -/
theorem startTest_reentrant_noop_witness :
    startTest cBusy "pk" ["wss://r1"] cEnv =
      { trace := [], followerFetchStarted := false, probesStarted := [] } :=
  startTest_reentrant_noop cBusy "pk" ["wss://r1"] cEnv rfl

/-- Claim C1 counterexample: with follower resolution succeeding and an
empty relay list, the final committed state does publish
`results = []` and `overlapResults = []`, but `error` does not stay
absent: the all-relays-failed summary is set, because the comparison
`failedTests.length === testResults.length` is `0 === 0` and so
vacuously true for an empty relay list. -/
theorem startTest_empty_relays_sets_error :
    getFollowers cEnv.followerQuery = Except.ok ["alice"] ∧
    (finalState cIdle (startTest cIdle "pk" [] cEnv)).results = some [] ∧
    (finalState cIdle (startTest cIdle "pk" [] cEnv)).overlapResults = some [] ∧
    (finalState cIdle (startTest cIdle "pk" [] cEnv)).error =
      some "All relays failed analysis. Please check your internet connection and try again." :=
  ⟨rfl, rfl, rfl, rfl⟩

/-- Claim C1 (amended): for every run in which follower resolution
succeeds and the configured relay list is empty, the run completes with
`results = []`, `overlapResults = []` and `isRunning = false`, but
`error` is set to the all-relays-failed summary message rather than
staying absent. -/
theorem startTest_empty_relay_list (s0 : RunState) (userPubkey : String)
    (env : RunEnv) (followers : List String) (h0 : s0.isRunning = false)
    (hf : getFollowers env.followerQuery = Except.ok followers) :
    (finalState s0 (startTest s0 userPubkey [] env)).results = some [] ∧
    (finalState s0 (startTest s0 userPubkey [] env)).overlapResults = some [] ∧
    (finalState s0 (startTest s0 userPubkey [] env)).error =
      some "All relays failed analysis. Please check your internet connection and try again." ∧
    (finalState s0 (startTest s0 userPubkey [] env)).isRunning = false := by
  unfold startTest
  rw [if_neg (by simp [h0]), hf]
  exact ⟨rfl, rfl, rfl, rfl⟩

/-- Claim C1 witness at the concrete idle state and environment. -/
theorem startTest_empty_relay_list_witness :
    (finalState cIdle (startTest cIdle "alicepk" [] cEnv)).results = some [] ∧
    (finalState cIdle (startTest cIdle "alicepk" [] cEnv)).overlapResults = some [] ∧
    (finalState cIdle (startTest cIdle "alicepk" [] cEnv)).error =
      some "All relays failed analysis. Please check your internet connection and try again." ∧
    (finalState cIdle (startTest cIdle "alicepk" [] cEnv)).isRunning = false :=
  startTest_empty_relay_list cIdle "alicepk" cEnv ["alice"] rfl rfl

/-- Every committed snapshot of a run that has `results` present has
`isRunning` false: the only snapshot publishing `results` is the final
batch, which also clears `isRunning` (the reset, fetch, probe and
follower-error snapshots all carry `results = none`). -/
theorem trace_results_not_running (s0 : RunState) (userPubkey : String)
    (relays : List String) (env : RunEnv) :
    ∀ q ∈ (startTest s0 userPubkey relays env).trace,
      q.results.isSome = true → q.isRunning = false := by
  intro q hq hres
  unfold startTest at hq
  by_cases hrun : s0.isRunning = true
  · rw [if_pos hrun] at hq
    simp at hq
  · rw [if_neg hrun] at hq
    cases hgf : getFollowers env.followerQuery with
    | error msg =>
        rw [hgf] at hq
        simp only [List.mem_cons, List.not_mem_nil, or_false] at hq
        rcases hq with rfl | rfl
        · simp [snapFetching] at hres
        · simp [snapFollowerError, snapFetching] at hres
    | ok followers =>
        rw [hgf] at hq
        simp only [List.mem_cons, List.mem_append, List.mem_map,
          List.not_mem_nil, or_false] at hq
        rcases hq with rfl | ⟨ir, hir, rfl⟩ | rfl
        · simp [snapFetching] at hres
        · simp [probeSnap, snapFetching] at hres
        · rfl

/-- Claim C4: within a single run, at any committed step at which the
`results` field transitions from absent to present, `isRunning` is
false — `setResults` and the `finally` block's `setIsRunning(false)`
lie in one synchronous block after the last await, so they commit as
one snapshot. -/
theorem startTest_results_transition_not_running (s0 : RunState)
    (userPubkey : String) (relays : List String) (env : RunEnv)
    (p : RunState × RunState)
    (hp : p ∈ (s0 :: (startTest s0 userPubkey relays env).trace).zip
        (startTest s0 userPubkey relays env).trace)
    (hpre : p.1.results = none) (hpost : p.2.results.isSome = true) :
    p.2.isRunning = false := by
  obtain ⟨a, b⟩ := p
  exact trace_results_not_running s0 userPubkey relays env b
    (List.of_mem_zip hp).2 hpost

/-- Claim C4 witness: the concrete empty-relay run commits the pair of
snapshots (fetching, final); at that transition `results` appears and
`isRunning` is false. -/
theorem startTest_results_transition_not_running_witness :
    (snapFinal ([] : List RelayPerformanceResult)).isRunning = false :=
  startTest_results_transition_not_running cIdle "pk" [] cEnv
    (snapFetching, snapFinal [])
    (show (snapFetching, snapFinal ([] : List RelayPerformanceResult)) ∈
        [(cIdle, snapFetching), (snapFetching, snapFinal [])] from
      List.Mem.tail _ (List.Mem.head _))
    rfl rfl
